import Mathlib

/-!
Verification of the job lifecycle controller in `src/frontend/js/app.js`.

The controller's mutable state consists of three module-level variables
(`currentVideoData`, `currentJobId`, `progressInterval`) together with the DOM
elements the code mutates (section visibility classes, text contents, the input
value, the quality selector, the download link's click handler).  We embed this
as a record `St` and each handler of the source as a state transformer.

Asynchronous handlers (`handleAnalyze`, `handleDownload`, the poll-tick body,
the download-link click handler) are split at their single `await fetch`
boundary: a synchronous prefix that runs up to the point the request is issued,
and a resume function taking the fetch outcome (a parsed body or a
transport/parse error, both of which land in the same `catch` in the source).

Timers are modelled explicitly: the environment keeps a list of live interval
ids (`activeTimers`); `setInterval` pushes a fresh id and `clearInterval`
erases one, mirroring the browser primitives, so that "two timers running" is
representable and the at-most-one-loop invariant is a real statement.
-/

/-- JS `s.trim()`: strip leading and trailing whitespace.  Defined by
structural recursion over the character list so that concrete instances
evaluate inside the kernel. -/
def jsTrim (s : String) : String :=
  String.mk (((s.data.dropWhile Char.isWhitespace).reverse.dropWhile Char.isWhitespace).reverse)

/-- JS `a || d` for an optional string field: `undefined`/`null` and the empty
string are falsy and select the default. -/
def jsOrS : Option String → String → String
  | none, d => d
  | some s, d => if s = "" then d else s

/-- JS truthiness of an optional string value (`undefined`/`null`/`""` are falsy). -/
def jsTruthyS : Option String → Bool
  | none => false
  | some s => s != ""

/-- JS template-literal interpolation of a possibly-null string variable:
`null` prints as the text "null". -/
def jsInterp : Option String → String
  | none => "null"
  | some s => s

/-- Outcome of an `await fetch(...)` followed by `await response.json()`:
either a parsed body, or a rejection (network failure or parse failure), which
the source handles in a single `catch (error)` block carrying `error.message`. -/
inductive FetchResult (α : Type) where
  | ok (data : α)
  | error (msg : String)
deriving Repr, DecidableEq

/-- Parsed body of an `/analyze` response, with the fields the source reads.
Optional fields model properties that may be absent from the JSON. -/
structure AnalyzeData where
  success : Bool
  title : Option String
  uploader : Option String
  duration_string : Option String
  thumbnail : Option String
  webpage_url : Option String
  formats : Option (List String)
  error : Option String
deriving Repr, DecidableEq

/-- Parsed body of a `/download` response. -/
structure DownloadData where
  success : Bool
  job_id : Option String
  error : Option String
deriving Repr, DecidableEq

/-- Parsed body of a `/progress/{job_id}` response.  `progress` is modelled as
an integer: the source only rounds and displays it, and no claim depends on
fractional values. -/
structure ProgressData where
  status : Option String
  progress : Option Int
  speed : Option String
  eta : Option String
  filename : Option String
  error : Option String
deriving Repr, DecidableEq

/-- Body of the POST `/download` request built by `handleDownload`. -/
structure DownloadRequest where
  url : String
  quality : String
  start_time : Option String
  end_time : Option String
deriving Repr, DecidableEq

/-- The controller state: the three module-level variables of the source, the
browser timer environment, and the DOM cells the code reads or writes. -/
structure St where
  /-- module variable `currentVideoData` -/
  currentVideoData : Option AnalyzeData
  /-- module variable `currentJobId` -/
  currentJobId : Option String
  /-- module variable `progressInterval` (a timer id or null) -/
  progressInterval : Option Nat
  /-- ids of interval timers currently live in the browser environment -/
  activeTimers : List Nat
  /-- next fresh id `setInterval` will return -/
  nextTimerId : Nat
  /-- `elements.urlInput.value` -/
  urlInput : String
  /-- `elements.qualitySelect.value` -/
  qualitySelect : String
  /-- the options markup of `elements.qualitySelect` -/
  qualityOptions : List String
  /-- visibility of `elements.videoCard` -/
  videoCardVisible : Bool
  /-- visibility of `elements.progressSection` -/
  progressVisible : Bool
  /-- visibility of `elements.completeSection` -/
  completeVisible : Bool
  /-- visibility of `elements.errorSection` -/
  errorVisible : Bool
  /-- `elements.errorMessage.textContent` -/
  errorMessage : String
  /-- `elements.thumbnail.src` -/
  thumbnailSrc : String
  /-- `elements.thumbnail.alt` -/
  thumbnailAlt : String
  /-- `elements.duration.textContent` -/
  durationText : String
  /-- `elements.videoTitle.textContent` -/
  videoTitleText : String
  /-- `elements.uploader.textContent` -/
  uploaderText : String
  /-- `elements.progressPercent.textContent` -/
  progressPercentText : String
  /-- `elements.progressFill.style.width` -/
  progressFillWidth : String
  /-- `elements.downloadFilename.textContent` -/
  downloadFilename : String
  /-- `elements.progressSpeed.textContent` -/
  progressSpeedText : String
  /-- `elements.progressEta.textContent` -/
  progressEtaText : String
  /-- the `filename` value captured by the `downloadLink.onclick` closure
  installed by `showComplete`; `none` before any handler is installed -/
  downloadLinkFilename : Option String
  /-- loading flag set by `setLoading` (button disabled, loader shown) -/
  analyzeLoading : Bool
deriving Repr, DecidableEq

/-- `hideAllSections()`: add the `hidden` class to the four sections. -/
def hideAllSections (s : St) : St :=
  { s with videoCardVisible := false, progressVisible := false,
           completeVisible := false, errorVisible := false }

/-- `showError(message)`: hide all sections, set the message, show the error
section. -/
def showError (message : String) (s : St) : St :=
  let s := hideAllSections s
  { s with errorMessage := message, errorVisible := true }

/-- `setLoading(loading)`. -/
def setLoading (loading : Bool) (s : St) : St :=
  { s with analyzeLoading := loading }

/-- `stopProgressPolling()`: if a timer handle is stored, `clearInterval` it and
null the handle; otherwise do nothing. -/
def stopProgressPolling (s : St) : St :=
  match s.progressInterval with
  | some id => { s with activeTimers := s.activeTimers.erase id, progressInterval := none }
  | none => s

/-- The timer-management part of `startProgressPolling()`: `clearInterval` any
stored handle (without nulling it), then `setInterval` a fresh timer and store
its id.  The tick body itself is `pollTick` below. -/
def startProgressPolling (s : St) : St :=
  let s :=
    match s.progressInterval with
    | some id => { s with activeTimers := s.activeTimers.erase id }
    | none => s
  { s with activeTimers := s.nextTimerId :: s.activeTimers,
           progressInterval := some s.nextTimerId,
           nextTimerId := s.nextTimerId + 1 }

/-- The fixed options `populateQualityOptions` writes into the dropdown. -/
def defaultQualityOptions : List String :=
  ["best", "1080p", "720p", "480p", "360p", "audio"]

/-- `populateQualityOptions(formats)`: the source ignores the server formats
and rewrites the fixed default options. -/
def populateQualityOptions (_formats : List String) (s : St) : St :=
  { s with qualityOptions := defaultQualityOptions }

/-- `displayVideoInfo(data)`: fill the video card from the response with the
source's `||` fallbacks, optionally repopulate the quality menu, and unhide the
card. -/
def displayVideoInfo (data : AnalyzeData) (s : St) : St :=
  let s := { s with
    thumbnailSrc := jsOrS data.thumbnail "",
    thumbnailAlt := jsOrS data.title "Video Thumbnail",
    durationText := jsOrS data.duration_string "00:00",
    videoTitleText := jsOrS data.title "Bilinmeyen Video",
    uploaderText := jsOrS data.uploader "Bilinmeyen Kanal" }
  let s :=
    match data.formats with
    | some fs => if fs.length > 0 then populateQualityOptions fs s else s
    | none => s
  { s with videoCardVisible := true }

/-- Synchronous prefix of `handleAnalyze()` up to the `fetch`: trim the input,
reject an empty URL via `showError` and return with no request; otherwise set
the loading flag, hide the sections, and return the `{url}` request body. -/
def handleAnalyzeStart (s : St) : St × Option String :=
  let url := jsTrim s.urlInput
  if url = "" then
    (showError "Lütfen bir video URL\x27si girin" s, none)
  else
    (hideAllSections (setLoading true s), some url)

/-- Continuation of `handleAnalyze()` after the `/analyze` fetch resolves:
store the data and display it on `success`, otherwise show the server error or
its fallback; on a transport/parse rejection show the connection error; in all
cases `finally` clears the loading flag. -/
def handleAnalyzeResume (s : St) (r : FetchResult AnalyzeData) : St :=
  let s :=
    match r with
    | .ok data =>
        if data.success then
          displayVideoInfo data { s with currentVideoData := some data }
        else
          showError (jsOrS data.error "Video analiz edilemedi") s
    | .error msg => showError ("Bağlantı hatası: " ++ msg) s
  setLoading false s

/-- Synchronous prefix of `handleDownload()` up to the `fetch`: resolve the
source URL (the stored `webpage_url` when truthy, else the trimmed input),
build the request body, hide the sections and show the progress section.  The
request is always issued; the returned body is its payload. -/
def handleDownloadStart (s : St) : St × DownloadRequest :=
  let url :=
    match s.currentVideoData with
    | some d => (match d.webpage_url with
                 | some u => if u = "" then jsTrim s.urlInput else u
                 | none => jsTrim s.urlInput)
    | none => jsTrim s.urlInput
  let requestBody : DownloadRequest :=
    { url := url, quality := s.qualitySelect, start_time := none, end_time := none }
  let s := hideAllSections s
  ({ s with progressVisible := true }, requestBody)

/-- Continuation of `handleDownload()` after the `/download` fetch resolves:
on `success` with a truthy `job_id`, store the job id and start polling;
otherwise show the server error or its fallback; on a transport/parse rejection
show the connection error. -/
def handleDownloadResume (s : St) (r : FetchResult DownloadData) : St :=
  match r with
  | .ok data =>
      if data.success && jsTruthyS data.job_id then
        startProgressPolling { s with currentJobId := data.job_id }
      else
        showError (jsOrS data.error "İndirme başlatılamadı") s
  | .error msg => showError ("Bağlantı hatası: " ++ msg) s

/-- One full `handleDownload()` invocation whose `/download` fetch resolves to
`r`: the synchronous prefix followed by the continuation. -/
def handleDownload (s : St) (r : FetchResult DownloadData) : St :=
  handleDownloadResume (handleDownloadStart s).1 r

/-- The URL of the progress request issued by the body of each poll tick.  The
source issues the fetch unconditionally; a null `currentJobId` is interpolated
into the template literal as the text "null". -/
def pollTickRequestUrl (s : St) : String :=
  "/api/progress/" ++ jsInterp s.currentJobId

/-- `updateProgress(data)`: render percent, speed and ETA with the source's
falsy fallbacks. -/
def updateProgress (data : ProgressData) (s : St) : St :=
  let progress := data.progress.getD 0
  { s with
    progressPercentText := toString progress ++ "%",
    progressFillWidth := toString progress ++ "%",
    progressSpeedText := jsOrS data.speed "-- MB/s",
    progressEtaText :=
      match data.eta with
      | some e => if e = "" then "Kalan: --" else "Kalan: " ++ e
      | none => "Kalan: --" }

/-- `showComplete(data)`: hide all sections, compute the filename with its
default, display it, install the download-link click handler capturing that
filename, and show the complete section. -/
def showComplete (data : ProgressData) (s : St) : St :=
  let s := hideAllSections s
  let filename := jsOrS data.filename "video.mp4"
  { s with downloadFilename := filename,
           downloadLinkFilename := some filename,
           completeVisible := true }

/-- Body of one poll tick once the `/progress` fetch resolves to `r`: on a
transport/parse rejection the `catch` only logs, leaving the state untouched;
on a parsed body the progress display is updated, then `completed` stops the
loop and shows the complete view, `failed` stops the loop and shows the error,
and any other status falls through. -/
def pollTick (s : St) (r : FetchResult ProgressData) : St :=
  match r with
  | .error _ => s
  | .ok data =>
      let s := updateProgress data s
      if data.status = some "completed" then
        showComplete data (stopProgressPolling s)
      else if data.status = some "failed" then
        showError (jsOrS data.error "İndirme başarısız oldu") (stopProgressPolling s)
      else s

/-- Outcome of the file fetch inside the `downloadLink.onclick` handler. -/
inductive FileFetchResult where
  | ok (blob : String)
  | httpError
  | transportError (msg : String)
deriving Repr, DecidableEq

/-- The `downloadLink.onclick` handler installed by `showComplete`, with
`filename` the value captured by the closure.  Returns the new state, and the
name the payload was saved to disk under when the fetch succeeded: a non-ok
response throws, and both it and a transport failure land in the `catch` that
shows a file error. -/
def downloadLinkHandler (filename : String) (s : St) (r : FileFetchResult) :
    St × Option String :=
  match r with
  | .ok _ => (s, some filename)
  | .httpError => (showError "Dosya indirilirken hata oluştu" s, none)
  | .transportError _ => (showError "Dosya indirilirken hata oluştu" s, none)

/-- A user click on the download link: runs the installed handler, a no-op when
no handler has been installed yet. -/
def clickDownloadLink (s : St) (r : FileFetchResult) : St × Option String :=
  match s.downloadLinkFilename with
  | some filename => downloadLinkHandler filename s r
  | none => (s, none)

/-- `resetApp()`: stop polling, clear the module state, reset the input and the
progress display, hide all sections.  Bound to both the new-download and retry
buttons. -/
def resetApp (s : St) : St :=
  let s := stopProgressPolling s
  let s := { s with currentVideoData := none, currentJobId := none,
                    urlInput := "", progressFillWidth := "0%",
                    progressPercentText := "0%" }
  hideAllSections s

/-- Consistency between the stored timer handle and the live timers: the set of
live interval timers is exactly the stored handle.  Holds initially (no timer,
null handle) and is preserved by every handler. -/
def TimerInv (s : St) : Prop :=
  s.activeTimers = s.progressInterval.toList

/-- The initial state after page load: null module variables, empty input, the
default selector value, everything hidden except the input form. -/
def initialState : St :=
  { currentVideoData := none, currentJobId := none, progressInterval := none,
    activeTimers := [], nextTimerId := 0, urlInput := "", qualitySelect := "best",
    qualityOptions := defaultQualityOptions, videoCardVisible := false,
    progressVisible := false, completeVisible := false, errorVisible := false,
    errorMessage := "", thumbnailSrc := "", thumbnailAlt := "", durationText := "",
    videoTitleText := "", uploaderText := "", progressPercentText := "0%",
    progressFillWidth := "0%", downloadFilename := "", progressSpeedText := "",
    progressEtaText := "", downloadLinkFilename := none, analyzeLoading := false }

/-! ## Helper lemmas -/

/-- The synchronous prefix of `handleDownload` only changes view flags: the
resulting state is the input with all sections hidden and the progress section
shown. -/
theorem handleDownloadStart_fst (s : St) :
    (handleDownloadStart s).1 = { hideAllSections s with progressVisible := true } := rfl

/-- Stopping the polling loop clears both the stored handle and, under the
timer invariant, the set of live timers. -/
theorem stopProgressPolling_clears (s : St) (hInv : TimerInv s) :
    (stopProgressPolling s).progressInterval = none ∧
    (stopProgressPolling s).activeTimers = [] := by
  unfold TimerInv at hInv
  cases h : s.progressInterval with
  | none => simp [stopProgressPolling, h, h ▸ hInv]
  | some id => simp [stopProgressPolling, h, h ▸ hInv]

/-- Starting the polling loop preserves the timer invariant. -/
theorem timerInv_startProgressPolling (s : St) (hInv : TimerInv s) :
    TimerInv (startProgressPolling s) := by
  unfold TimerInv at hInv ⊢
  cases h : s.progressInterval with
  | none => simp [startProgressPolling, h, h ▸ hInv]
  | some id => simp [startProgressPolling, h, h ▸ hInv]

/-- Stopping the polling loop preserves the timer invariant. -/
theorem timerInv_stopProgressPolling (s : St) (hInv : TimerInv s) :
    TimerInv (stopProgressPolling s) := by
  unfold TimerInv at hInv ⊢
  cases h : s.progressInterval with
  | none => simp [stopProgressPolling, h, h ▸ hInv]
  | some id => simp [stopProgressPolling, h, h ▸ hInv]

/-! ## C4 — a failed poll tick is swallowed -/

/-- C4: on every poll tick whose progress request or response parsing fails,
the controller state is completely unchanged — no section changes, no error is
surfaced, the stored timer handle and the live timers are untouched, so the
loop keeps ticking. -/
theorem C4_poll_transport_error_is_noop (s : St) (msg : String) :
    pollTick s (FetchResult.error msg) = s := rfl

/-! ## C5 — empty URL short-circuits analyze -/

/-- C5: when the input URL trims to the empty string, `handleAnalyze` issues no
network request and goes directly to the error view with the localized
empty-URL message. -/
theorem C5_empty_url_no_request (s : St) (h : jsTrim s.urlInput = "") :
    (handleAnalyzeStart s).2 = none ∧
    (handleAnalyzeStart s).1.errorVisible = true ∧
    (handleAnalyzeStart s).1.errorMessage = "Lütfen bir video URL\x27si girin" := by
  simp [handleAnalyzeStart, h, showError, hideAllSections]

/-- Witness for C5 at the concrete whitespace input "  ". -/
theorem C5_empty_url_no_request_witness :
    jsTrim ({ initialState with urlInput := "  " } : St).urlInput = "" ∧
    ((handleAnalyzeStart { initialState with urlInput := "  " }).2 = none ∧
     (handleAnalyzeStart { initialState with urlInput := "  " }).1.errorVisible = true ∧
     (handleAnalyzeStart { initialState with urlInput := "  " }).1.errorMessage
       = "Lütfen bir video URL\x27si girin") :=
  ⟨by decide, C5_empty_url_no_request _ (by decide)⟩

/-! ## C10 — startDownload does not validate its input -/

/-- C10: `handleDownload` performs no input validation: with no stored metadata
and an input that trims empty, the synchronous prefix still produces exactly
one download-start request whose body carries the empty url and the currently
selected quality, with null trim fields. -/
theorem C10_no_validation (s : St) (h1 : s.currentVideoData = none)
    (h2 : jsTrim s.urlInput = "") :
    (handleDownloadStart s).2 =
      { url := "", quality := s.qualitySelect, start_time := none, end_time := none } ∧
    (handleDownloadStart s).1.progressVisible = true := by
  simp [handleDownloadStart, h1, h2, hideAllSections]

/-- Witness for C10 at the initial state (no metadata, empty input). -/
theorem C10_no_validation_witness :
    initialState.currentVideoData = none ∧ jsTrim initialState.urlInput = "" ∧
    ((handleDownloadStart initialState).2 =
      { url := "", quality := initialState.qualitySelect,
        start_time := none, end_time := none } ∧
     (handleDownloadStart initialState).1.progressVisible = true) :=
  ⟨by decide, by decide, C10_no_validation _ (by decide) (by decide)⟩

/-- The progress display update touches neither the timer handle nor the live
timers, so it preserves the timer invariant. -/
theorem timerInv_updateProgress (data : ProgressData) (s : St) (hInv : TimerInv s) :
    TimerInv (updateProgress data s) := hInv

/-- A state in which one polling loop is running: timer 0 is live and stored,
an active job id is set. -/
def runningState : St :=
  { initialState with progressInterval := some 0, activeTimers := [0],
                      nextTimerId := 1, currentJobId := some "job1" }

/-! ## C2 — terminal poll statuses -/

/-- C2: a well-formed poll response with status "completed" stops the loop and
shows the complete view retaining the reported filename; status "failed" stops
the loop and shows the error view with the server message or the generic
fallback when absent; any other status leaves the timer running. -/
theorem C2_terminal_poll (s : St) (data : ProgressData) (hInv : TimerInv s) :
    (data.status = some "completed" →
      (pollTick s (FetchResult.ok data)).progressInterval = none ∧
      (pollTick s (FetchResult.ok data)).activeTimers = [] ∧
      (pollTick s (FetchResult.ok data)).completeVisible = true ∧
      ∀ f, data.filename = some f → f ≠ "" →
        (pollTick s (FetchResult.ok data)).downloadFilename = f) ∧
    (data.status = some "failed" →
      (pollTick s (FetchResult.ok data)).progressInterval = none ∧
      (pollTick s (FetchResult.ok data)).activeTimers = [] ∧
      (pollTick s (FetchResult.ok data)).errorVisible = true ∧
      (∀ m, data.error = some m → m ≠ "" →
        (pollTick s (FetchResult.ok data)).errorMessage = m) ∧
      (data.error = none →
        (pollTick s (FetchResult.ok data)).errorMessage = "İndirme başarısız oldu")) ∧
    (data.status ≠ some "completed" → data.status ≠ some "failed" →
      (pollTick s (FetchResult.ok data)).progressInterval = s.progressInterval ∧
      (pollTick s (FetchResult.ok data)).activeTimers = s.activeTimers) := by
  obtain ⟨hpi, hat⟩ :=
    stopProgressPolling_clears (updateProgress data s) (timerInv_updateProgress data s hInv)
  refine ⟨fun h => ?_, fun h => ?_, fun h1 h2 => ?_⟩
  · simp only [pollTick, h, if_pos rfl]
    refine ⟨by simp [showComplete, hideAllSections, hpi],
            by simp [showComplete, hideAllSections, hat],
            by simp [showComplete, hideAllSections], ?_⟩
    intro f hf hne
    simp [showComplete, hideAllSections, hf, jsOrS, hne]
  · have hne : ¬ (data.status = some "completed") := by simp [h]
    simp only [pollTick, h, if_neg hne, if_pos rfl]
    refine ⟨by simp [showError, hideAllSections, hpi],
            by simp [showError, hideAllSections, hat],
            by simp [showError, hideAllSections], ?_, ?_⟩
    · intro m hm hmne
      simp [showError, hideAllSections, hm, jsOrS, hmne]
    · intro hm
      simp [showError, hideAllSections, hm, jsOrS]
  · simp only [pollTick, if_neg h1, if_neg h2]
    exact ⟨rfl, rfl⟩

/-- Witness for C2: at the running state, the spec example
`{status: failed, error: "disk full"}` stops the loop and shows "disk full". -/
theorem C2_terminal_poll_witness :
    TimerInv runningState ∧
    (pollTick runningState (FetchResult.ok
      { status := some "failed", progress := none, speed := none, eta := none,
        filename := none, error := some "disk full" })).errorMessage = "disk full" ∧
    (pollTick runningState (FetchResult.ok
      { status := some "failed", progress := none, speed := none, eta := none,
        filename := none, error := some "disk full" })).activeTimers = [] ∧
    (pollTick runningState (FetchResult.ok
      { status := some "failed", progress := none, speed := none, eta := none,
        filename := none, error := some "disk full" })).errorVisible = true := by
  have h := (C2_terminal_poll runningState
    { status := some "failed", progress := none, speed := none, eta := none,
      filename := none, error := some "disk full" } rfl).2.1 rfl
  exact ⟨rfl, h.2.2.2.1 "disk full" rfl (by decide), h.2.1, h.2.2.1⟩

/-! ## C9 — default filename on completed responses -/

/-- C9: a completed poll response with no filename field displays the default
"video.mp4" and a later successful retrieval saves the payload under that same
default name. -/
theorem C9_default_filename (s : St) (data : ProgressData)
    (hs : data.status = some "completed") (hf : data.filename = none) :
    (pollTick s (FetchResult.ok data)).downloadFilename = "video.mp4" ∧
    (pollTick s (FetchResult.ok data)).downloadLinkFilename = some "video.mp4" ∧
    ∀ blob, (clickDownloadLink (pollTick s (FetchResult.ok data))
      (FileFetchResult.ok blob)).2 = some "video.mp4" := by
  simp only [pollTick, hs, if_pos rfl]
  refine ⟨by simp [showComplete, hideAllSections, hf, jsOrS],
          by simp [showComplete, hideAllSections, hf, jsOrS], ?_⟩
  intro blob
  simp [clickDownloadLink, showComplete, hideAllSections, hf, jsOrS, downloadLinkHandler]

/-- Witness for C9 at the running state and a filename-less completed response. -/
theorem C9_default_filename_witness :
    (pollTick runningState (FetchResult.ok
      { status := some "completed", progress := some 100, speed := none, eta := none,
        filename := none, error := none })).downloadFilename = "video.mp4" ∧
    (pollTick runningState (FetchResult.ok
      { status := some "completed", progress := some 100, speed := none, eta := none,
        filename := none, error := none })).downloadLinkFilename = some "video.mp4" ∧
    (clickDownloadLink (pollTick runningState (FetchResult.ok
      { status := some "completed", progress := some 100, speed := none, eta := none,
        filename := none, error := none })) (FileFetchResult.ok "payload")).2
      = some "video.mp4" := by
  have h := C9_default_filename runningState
    { status := some "completed", progress := some 100, speed := none, eta := none,
      filename := none, error := none } rfl rfl
  exact ⟨h.1, h.2.1, h.2.2 "payload"⟩

/-- One full `handleDownload` invocation preserves the timer invariant,
whatever the fetch outcome. -/
theorem timerInv_handleDownload (s : St) (r : FetchResult DownloadData)
    (hInv : TimerInv s) : TimerInv (handleDownload s r) := by
  have h1 : TimerInv (handleDownloadStart s).1 := hInv
  cases r with
  | error msg => exact h1
  | ok data =>
      show TimerInv (handleDownloadResume (handleDownloadStart s).1 (FetchResult.ok data))
      by_cases hc : (data.success && jsTruthyS data.job_id) = true
      · have heq : handleDownloadResume (handleDownloadStart s).1 (FetchResult.ok data)
            = startProgressPolling
                { (handleDownloadStart s).1 with currentJobId := data.job_id } := by
          simp [handleDownloadResume, hc]
        rw [heq]
        exact timerInv_startProgressPolling _ h1
      · have heq : handleDownloadResume (handleDownloadStart s).1 (FetchResult.ok data)
            = showError (jsOrS data.error "İndirme başlatılamadı")
                (handleDownloadStart s).1 := by
          simp [handleDownloadResume, hc]
        rw [heq]
        exact h1

/-- Under the timer invariant at most one interval timer is live. -/
theorem timerInv_length_le_one (s : St) (hInv : TimerInv s) :
    s.activeTimers.length ≤ 1 := by
  unfold TimerInv at hInv
  rw [hInv]
  cases s.progressInterval <;> simp

/-! ## C1 — at most one polling loop -/

/-- C1 counterexample: invoking `handleDownload` while the polling loop of
`runningState` is live, with a download-start response that fails
(`success: false`), leaves timer 0 live and stored: the previously running
polling loop is not stopped by the invocation, neither before the request is
issued nor afterwards. -/
theorem C1_counterexample :
    runningState.progressInterval = some 0 ∧ runningState.activeTimers = [0] ∧
    (handleDownload runningState (FetchResult.ok
      { success := false, job_id := none, error := none })).activeTimers = [0] ∧
    (handleDownload runningState (FetchResult.ok
      { success := false, job_id := none, error := none })).progressInterval = some 0 := by
  decide

/-- C1 (amended): the synchronous prefix of `handleDownload` leaves any running
loop untouched; the old timer is cleared only inside `startProgressPolling`
when the download-start succeeds, immediately before the new timer is created.
Nevertheless the timer invariant is preserved by every invocation, so after one
or two invocations in succession at most one polling timer is live. -/
theorem C1_single_timer (s : St) (r₁ r₂ : FetchResult DownloadData)
    (hInv : TimerInv s) :
    (handleDownloadStart s).1.activeTimers = s.activeTimers ∧
    (handleDownloadStart s).1.progressInterval = s.progressInterval ∧
    TimerInv (handleDownload s r₁) ∧
    (handleDownload s r₁).activeTimers.length ≤ 1 ∧
    (handleDownload (handleDownload s r₁) r₂).activeTimers.length ≤ 1 := by
  have i1 := timerInv_handleDownload s r₁ hInv
  have i2 := timerInv_handleDownload _ r₂ i1
  exact ⟨rfl, rfl, i1, timerInv_length_le_one _ i1, timerInv_length_le_one _ i2⟩

/-- Witness for C1 at the running state: a succeeding invocation followed by a
failing one leaves at most one live timer. -/
theorem C1_single_timer_witness :
    TimerInv runningState ∧
    ((handleDownloadStart runningState).1.activeTimers = runningState.activeTimers ∧
     (handleDownloadStart runningState).1.progressInterval = runningState.progressInterval ∧
     TimerInv (handleDownload runningState (FetchResult.ok
       { success := true, job_id := some "job2", error := none })) ∧
     (handleDownload runningState (FetchResult.ok
       { success := true, job_id := some "job2", error := none })).activeTimers.length ≤ 1 ∧
     (handleDownload
       (handleDownload runningState
         (FetchResult.ok { success := true, job_id := some "job2", error := none }))
       (FetchResult.ok { success := false, job_id := none, error := none })).activeTimers.length ≤ 1) :=
  ⟨rfl, C1_single_timer runningState
    (FetchResult.ok { success := true, job_id := some "job2", error := none })
    (FetchResult.ok { success := false, job_id := none, error := none }) rfl⟩

/-- Field accounting for `displayVideoInfo`: the module variables and timers
are untouched, the card is shown, and the text cells get the source's `||`
fallbacks. -/
theorem displayVideoInfo_fields (data : AnalyzeData) (s : St) :
    (displayVideoInfo data s).currentJobId = s.currentJobId ∧
    (displayVideoInfo data s).currentVideoData = s.currentVideoData ∧
    (displayVideoInfo data s).activeTimers = s.activeTimers ∧
    (displayVideoInfo data s).progressInterval = s.progressInterval ∧
    (displayVideoInfo data s).videoCardVisible = true ∧
    (displayVideoInfo data s).videoTitleText = jsOrS data.title "Bilinmeyen Video" ∧
    (displayVideoInfo data s).durationText = jsOrS data.duration_string "00:00" ∧
    (displayVideoInfo data s).uploaderText = jsOrS data.uploader "Bilinmeyen Kanal" := by
  rcases hf : data.formats with _ | fs
  · simp [displayVideoInfo, populateQualityOptions, hf]
  · by_cases h : fs.length > 0 <;>
      simp [displayVideoInfo, populateQualityOptions, hf, h]

/-! ## C3 — what analyze clears and when -/

/-- Stale state: metadata of a previous video and a previous job handle are
stored while a fresh URL sits in the input. -/
def c3Video : AnalyzeData :=
  { success := true, title := some "Old title", uploader := none,
    duration_string := none, thumbnail := none,
    webpage_url := some "https://old.example", formats := none, error := none }

/-- State holding `c3Video` and job "job1" with a new URL typed in. -/
def c3StaleState : St :=
  { initialState with currentVideoData := some c3Video, currentJobId := some "job1",
                      urlInput := "https://new.example" }

/-- C3 counterexample: starting `handleAnalyze` on the stale state issues the
analyze request (the returned body is `some url`) while the previous video's
metadata and the previous job handle are still stored — nothing was cleared
before the request was issued. -/
theorem C3_counterexample :
    (handleAnalyzeStart c3StaleState).2 = some "https://new.example" ∧
    (handleAnalyzeStart c3StaleState).1.currentVideoData = some c3Video ∧
    (handleAnalyzeStart c3StaleState).1.currentJobId = some "job1" := by decide

/-- C3 (amended): reset/retry do clear the stored metadata and job handle, but
`handleAnalyze` does not: on valid input the analyze request is issued with the
previous metadata and job handle still stored; the metadata is replaced only on
a successful response, and the job handle is never cleared by analyze. -/
theorem C3_clear_on_reset_only (s : St) (h : jsTrim s.urlInput ≠ "") :
    (resetApp s).currentVideoData = none ∧
    (resetApp s).currentJobId = none ∧
    (handleAnalyzeStart s).2 = some (jsTrim s.urlInput) ∧
    (handleAnalyzeStart s).1.currentVideoData = s.currentVideoData ∧
    (handleAnalyzeStart s).1.currentJobId = s.currentJobId ∧
    (∀ r, (handleAnalyzeResume (handleAnalyzeStart s).1 r).currentJobId
      = s.currentJobId) ∧
    (∀ data, data.success = true →
      (handleAnalyzeResume (handleAnalyzeStart s).1 (FetchResult.ok data)).currentVideoData
        = some data) := by
  have hstart : (handleAnalyzeStart s).1 = hideAllSections (setLoading true s) ∧
      (handleAnalyzeStart s).2 = some (jsTrim s.urlInput) := by
    constructor <;> simp [handleAnalyzeStart, h]
  refine ⟨rfl, rfl, hstart.2, by rw [hstart.1]; rfl, by rw [hstart.1]; rfl, ?_, ?_⟩
  · intro r
    cases r with
    | error msg => rw [hstart.1]; rfl
    | ok data =>
        by_cases hs : data.success = true
        · have he : handleAnalyzeResume (handleAnalyzeStart s).1 (FetchResult.ok data)
              = setLoading false (displayVideoInfo data
                  { (handleAnalyzeStart s).1 with currentVideoData := some data }) := by
            simp [handleAnalyzeResume, hs]
          rw [he, hstart.1]
          exact (displayVideoInfo_fields data _).1
        · have he : handleAnalyzeResume (handleAnalyzeStart s).1 (FetchResult.ok data)
              = setLoading false (showError (jsOrS data.error "Video analiz edilemedi")
                  (handleAnalyzeStart s).1) := by
            simp [handleAnalyzeResume, hs]
          rw [he, hstart.1]; rfl
  · intro data hs
    have he : handleAnalyzeResume (handleAnalyzeStart s).1 (FetchResult.ok data)
        = setLoading false (displayVideoInfo data
            { (handleAnalyzeStart s).1 with currentVideoData := some data }) := by
      simp [handleAnalyzeResume, hs]
    rw [he]
    exact (displayVideoInfo_fields data _).2.1

/-- Witness for C3 (amended) at the stale state: reset clears both fields, and
a failing analyze leaves the old job handle in place. -/
theorem C3_clear_on_reset_only_witness :
    jsTrim c3StaleState.urlInput ≠ "" ∧
    ((resetApp c3StaleState).currentVideoData = none ∧
     (resetApp c3StaleState).currentJobId = none ∧
     (handleAnalyzeStart c3StaleState).1.currentVideoData = some c3Video ∧
     (handleAnalyzeResume (handleAnalyzeStart c3StaleState).1
       (FetchResult.error "down")).currentJobId = some "job1") := by
  have h := C3_clear_on_reset_only c3StaleState (by decide)
  exact ⟨by decide, h.1, h.2.1, h.2.2.2.1.trans rfl,
         (h.2.2.2.2.2.1 (FetchResult.error "down")).trans rfl⟩

/-! ## C7 — ticks with no active job handle -/

/-- C7 counterexample: at the initial state no job handle is active, yet the
tick body still issues a progress request — to "/api/progress/null", the null
job id interpolated as text — and a completed response even changes the state,
so the tick is not a no-op. -/
theorem C7_counterexample :
    initialState.currentJobId = none ∧
    pollTickRequestUrl initialState = "/api/progress/null" ∧
    (pollTick initialState (FetchResult.ok
      { status := some "completed", progress := none, speed := none, eta := none,
        filename := some "x.mp4", error := none })).completeVisible = true ∧
    initialState.completeVisible = false := by decide

/-- C7 (amended): a poll tick that fires with no active job handle is not
guarded: it issues the progress request to "/api/progress/null" and handles the
response like any other tick — the state is unchanged only when the fetch
fails, while a completed response still switches to the complete view. -/
theorem C7_tick_without_job (s : St) (h : s.currentJobId = none) :
    pollTickRequestUrl s = "/api/progress/null" ∧
    (∀ msg, pollTick s (FetchResult.error msg) = s) ∧
    (∀ data, data.status = some "completed" →
      (pollTick s (FetchResult.ok data)).completeVisible = true) := by
  refine ⟨by simp [pollTickRequestUrl, h, jsInterp], fun msg => rfl, fun data hd => ?_⟩
  simp only [pollTick, hd, if_pos rfl]
  simp [showComplete, hideAllSections]

/-- Witness for C7 (amended) at the initial state. -/
theorem C7_tick_without_job_witness :
    initialState.currentJobId = none ∧
    (pollTickRequestUrl initialState = "/api/progress/null" ∧
     pollTick initialState (FetchResult.error "refused") = initialState ∧
     (pollTick initialState (FetchResult.ok
       { status := some "completed", progress := none, speed := none, eta := none,
         filename := some "x.mp4", error := none })).completeVisible = true) := by
  have h := C7_tick_without_job initialState rfl
  exact ⟨rfl, h.1, h.2.1 "refused",
         h.2.2 { status := some "completed", progress := none, speed := none,
                 eta := none, filename := some "x.mp4", error := none } rfl⟩

/-! ## C8 — metadata shown on a successful analyze -/

/-- A successful analyze response with no title field. -/
def c8NoTitle : AnalyzeData :=
  { success := true, title := none, uploader := some "ChannelX",
    duration_string := none, thumbnail := none,
    webpage_url := some "https://w.example", formats := none, error := none }

/-- C8 counterexample: when the title is absent, the controller displays the
localized default "Bilinmeyen Video", which is not the string "Unknown video"
named by the claim. -/
theorem C8_counterexample :
    (handleAnalyzeResume initialState (FetchResult.ok c8NoTitle)).videoTitleText
      = "Bilinmeyen Video" ∧
    (handleAnalyzeResume initialState (FetchResult.ok c8NoTitle)).videoTitleText
      ≠ "Unknown video" := by decide

/-- C8 (amended): a `success: true` analyze response shows the video card with
the response stored verbatim and each text cell copied from the response, the
absent-field defaults being the localized strings of the source: duration
"00:00", title "Bilinmeyen Video", uploader "Bilinmeyen Kanal". -/
theorem C8_ready_metadata (s : St) (data : AnalyzeData) (h : data.success = true) :
    (handleAnalyzeResume s (FetchResult.ok data)).videoCardVisible = true ∧
    (handleAnalyzeResume s (FetchResult.ok data)).currentVideoData = some data ∧
    (∀ t, data.title = some t → t ≠ "" →
      (handleAnalyzeResume s (FetchResult.ok data)).videoTitleText = t) ∧
    (data.title = none →
      (handleAnalyzeResume s (FetchResult.ok data)).videoTitleText = "Bilinmeyen Video") ∧
    (∀ d, data.duration_string = some d → d ≠ "" →
      (handleAnalyzeResume s (FetchResult.ok data)).durationText = d) ∧
    (data.duration_string = none →
      (handleAnalyzeResume s (FetchResult.ok data)).durationText = "00:00") ∧
    (∀ u, data.uploader = some u → u ≠ "" →
      (handleAnalyzeResume s (FetchResult.ok data)).uploaderText = u) ∧
    (data.uploader = none →
      (handleAnalyzeResume s (FetchResult.ok data)).uploaderText = "Bilinmeyen Kanal") := by
  have he : handleAnalyzeResume s (FetchResult.ok data)
      = setLoading false (displayVideoInfo data { s with currentVideoData := some data }) := by
    simp [handleAnalyzeResume, h]
  have hd := displayVideoInfo_fields data { s with currentVideoData := some data }
  rw [he]
  refine ⟨hd.2.2.2.2.1, hd.2.1, ?_, ?_, ?_, ?_, ?_, ?_⟩
  · intro t ht hne
    exact hd.2.2.2.2.2.1.trans (by simp [jsOrS, ht, hne])
  · intro ht
    exact hd.2.2.2.2.2.1.trans (by simp [jsOrS, ht])
  · intro d hdur hne
    exact hd.2.2.2.2.2.2.1.trans (by simp [jsOrS, hdur, hne])
  · intro hdur
    exact hd.2.2.2.2.2.2.1.trans (by simp [jsOrS, hdur])
  · intro u hu hne
    exact hd.2.2.2.2.2.2.2.trans (by simp [jsOrS, hu, hne])
  · intro hu
    exact hd.2.2.2.2.2.2.2.trans (by simp [jsOrS, hu])

/-- Witness for C8 (amended) at the concrete response `c8NoTitle`. -/
theorem C8_ready_metadata_witness :
    c8NoTitle.success = true ∧
    ((handleAnalyzeResume initialState (FetchResult.ok c8NoTitle)).videoCardVisible = true ∧
     (handleAnalyzeResume initialState (FetchResult.ok c8NoTitle)).currentVideoData
       = some c8NoTitle ∧
     (handleAnalyzeResume initialState (FetchResult.ok c8NoTitle)).videoTitleText
       = "Bilinmeyen Video" ∧
     (handleAnalyzeResume initialState (FetchResult.ok c8NoTitle)).durationText = "00:00" ∧
     (handleAnalyzeResume initialState (FetchResult.ok c8NoTitle)).uploaderText
       = "ChannelX") := by
  have h := C8_ready_metadata initialState c8NoTitle rfl
  exact ⟨rfl, h.1, h.2.1, h.2.2.2.1 rfl, h.2.2.2.2.2.1 rfl,
         h.2.2.2.2.2.2.1 "ChannelX" rfl (by decide)⟩

/-! ## C6 — file retrieval failure in the Completed phase -/

/-- A completed poll response reporting the filename "x.mp4". -/
def c6Done : ProgressData :=
  { status := some "completed", progress := some 100, speed := none, eta := none,
    filename := some "x.mp4", error := none }

/-- C6 counterexample: after reaching the complete view, a retrieval click
whose response is non-success runs `showError`, which hides the complete
section and shows the error section — the Completed view does not remain. -/
theorem C6_counterexample :
    (pollTick runningState (FetchResult.ok c6Done)).completeVisible = true ∧
    (pollTick runningState (FetchResult.ok c6Done)).downloadFilename = "x.mp4" ∧
    (clickDownloadLink (pollTick runningState (FetchResult.ok c6Done))
      FileFetchResult.httpError).1.completeVisible = false ∧
    (clickDownloadLink (pollTick runningState (FetchResult.ok c6Done))
      FileFetchResult.httpError).1.errorVisible = true := by decide

/-- C6 (amended): with the retrieval handler installed, a non-success retrieval
surfaces a one-off error by switching the visible view to the error section
(hiding the complete section); the stored state — job handle, metadata, timer
handle, displayed filename, installed handler — is unchanged, and the action
can be invoked repeatedly: a success click saves under the captured filename
and changes no state, before or after a failed click. -/
theorem C6_retrieval_error (s : St) (fn : String)
    (h : s.downloadLinkFilename = some fn) :
    (clickDownloadLink s FileFetchResult.httpError).1
      = showError "Dosya indirilirken hata oluştu" s ∧
    (clickDownloadLink s FileFetchResult.httpError).1.errorVisible = true ∧
    (clickDownloadLink s FileFetchResult.httpError).1.completeVisible = false ∧
    (clickDownloadLink s FileFetchResult.httpError).1.currentJobId = s.currentJobId ∧
    (clickDownloadLink s FileFetchResult.httpError).1.currentVideoData = s.currentVideoData ∧
    (clickDownloadLink s FileFetchResult.httpError).1.progressInterval = s.progressInterval ∧
    (clickDownloadLink s FileFetchResult.httpError).1.downloadFilename = s.downloadFilename ∧
    (clickDownloadLink s FileFetchResult.httpError).1.downloadLinkFilename = some fn ∧
    (∀ blob, clickDownloadLink s (FileFetchResult.ok blob) = (s, some fn)) ∧
    (∀ blob, clickDownloadLink (clickDownloadLink s FileFetchResult.httpError).1
      (FileFetchResult.ok blob)
      = ((clickDownloadLink s FileFetchResult.httpError).1, some fn)) := by
  have hc : clickDownloadLink s FileFetchResult.httpError
      = (showError "Dosya indirilirken hata oluştu" s, none) := by
    simp [clickDownloadLink, h, downloadLinkHandler]
  refine ⟨by rw [hc], by rw [hc]; rfl, by rw [hc]; rfl, by rw [hc]; rfl, by rw [hc]; rfl,
          by rw [hc]; rfl, by rw [hc]; rfl, by rw [hc]; exact h, ?_, ?_⟩
  · intro blob
    simp [clickDownloadLink, h, downloadLinkHandler]
  · intro blob
    rw [hc]
    simp [clickDownloadLink, showError, hideAllSections, h, downloadLinkHandler]

/-- A concrete completed state with the retrieval handler installed for
"x.mp4". -/
def c6CompletedState : St :=
  { initialState with completeVisible := true, downloadFilename := "x.mp4",
                      downloadLinkFilename := some "x.mp4", currentJobId := some "job1" }

/-- Witness for C6 (amended) at a concrete completed state. -/
theorem C6_retrieval_error_witness :
    c6CompletedState.downloadLinkFilename = some "x.mp4" ∧
    ((clickDownloadLink c6CompletedState FileFetchResult.httpError).1.errorVisible = true ∧
     (clickDownloadLink c6CompletedState FileFetchResult.httpError).1.completeVisible = false ∧
     clickDownloadLink c6CompletedState (FileFetchResult.ok "payload")
       = (c6CompletedState, some "x.mp4")) := by
  have h := C6_retrieval_error c6CompletedState "x.mp4" rfl
  exact ⟨rfl, h.2.1, h.2.2.1, h.2.2.2.2.2.2.2.2.1 "payload"⟩
